import Mathlib

/-!
Shallow embedding of the Radex permission-scoped retrieval engine
(`server/app/services/*.py`) and proofs about its specification.

Conventions of the embedding:
* SQLAlchemy tables become lists of records inside a `DB` structure; a
  `query(...).filter(...).first()` becomes `List.find?`, `.all()` becomes
  `List.filter`, `.delete()` becomes removal by predicate.
* Exceptions (`NotFoundException`, `BadRequestException`,
  `PermissionDeniedException`) become an `Except AppError` result.
* External network services (OpenAI embeddings / completions) become oracle
  function arguments, since the Python code only branches on their returned
  text or on whether they raised.
* Python's unbounded recursion is modelled with explicit fuel; fuel
  exhaustion plays the role of a `RecursionError`.
* Floating-point vector components and similarity scores are modelled as
  exact integers (a fixed-point view of the float values): the code only
  ever subtracts such values from 1 and compares them, so any linearly
  ordered ring is a faithful carrier for those two operations.
* The pgvector cosine-distance operator `<=>` is an opaque `dist` function
  argument; the SQL `ORDER BY <distance>` over row sets is modelled as a
  stable sort (`List.insertionSort`) of the joined rows in table order,
  which is the canonical deterministic reading of an `ORDER BY` without
  tie-break columns.
* Database commits are modelled by returning the durable state together with
  the result: each `commit()` produces a new durable state, and a raised
  exception after a `rollback()` leaves the durable state at the last commit.
-/

namespace Radex

/-! ## Data model (`app/models`) -/

structure User where
  user_id : Nat
  is_superuser : Bool
  deriving Repr, DecidableEq

structure Folder where
  id : Nat
  name : String
  owner_id : Nat
  parent_id : Option Nat
  deriving Repr, DecidableEq

structure Permission where
  user_id : Nat
  folder_id : Nat
  can_read : Bool
  can_write : Bool
  can_delete : Bool
  is_admin : Bool
  deriving Repr, DecidableEq

structure Document where
  id : Nat
  folder_id : Nat
  filename : String
  deriving Repr, DecidableEq

structure EmbeddingRow where
  id : Nat
  document_id : Nat
  chunk_index : Nat
  chunk_text : String
  embedding : List ℤ
  deriving Repr, DecidableEq

structure DB where
  users : List User
  folders : List Folder
  permissions : List Permission
  documents : List Document
  embeddings : List EmbeddingRow
  deriving Repr, DecidableEq

/-- The exception taxonomy of `app/core/exceptions.py` that the modelled
services raise. -/
inductive AppError where
  | notFound (msg : String)
  | badRequest (msg : String)
  | permissionDenied (msg : String)
  deriving Repr, DecidableEq

/-! ## Python string primitives

The Lean core `String` functions based on byte positions (`trim`, `replace`,
`toLower`, …) do not reduce inside the kernel, so the Python string
operations the services use are embedded at the code-point level
(`List Char`), matching Python semantics: `str.strip`/`lower`/`upper`/
`len`/`split()`/`replace(c, "")` and the substring operator `in`. -/

def pythonSpace (c : Char) : Bool :=
  c == ' ' || c == '\t' || c == '\n' || c == '\r' || c == '\x0b' || c == '\x0c'

def pyStrip (s : String) : String :=
  String.mk (((s.toList.dropWhile (pythonSpace ·)).reverse.dropWhile
    (pythonSpace ·)).reverse)

def pyLower (s : String) : String :=
  String.mk (s.toList.map Char.toLower)

def pyUpper (s : String) : String :=
  String.mk (s.toList.map Char.toUpper)

def pyRemoveChar (s : String) (c : Char) : String :=
  String.mk (s.toList.filter (fun a => !(a == c)))

def pyLen (s : String) : Nat :=
  s.toList.length

def splitWordsAux : List Char → List Char → List String
  | [], acc => if acc.isEmpty then [] else [String.mk acc.reverse]
  | c :: cs, acc =>
    if pythonSpace c then
      if acc.isEmpty then splitWordsAux cs []
      else String.mk acc.reverse :: splitWordsAux cs []
    else splitWordsAux cs (c :: acc)

/-- Python's argumentless `str.split()`: split on whitespace runs, no empty
words. -/
def pySplit (s : String) : List String := splitWordsAux s.toList []

def charsStartWith : List Char → List Char → Bool
  | [], _ => true
  | _ :: _, [] => false
  | p :: ps, c :: cs => p == c && charsStartWith ps cs

def charsContain (pat : List Char) : List Char → Bool
  | [] => charsStartWith pat []
  | c :: cs => charsStartWith pat (c :: cs) || charsContain pat cs

/-- Python's `pat in s` on strings: substring containment. -/
def strContains (s pat : String) : Bool := charsContain pat.toList s.toList

/-! ## PermissionService (`app/services/permission_service.py`) -/

/-- `user and user.is_superuser` for the result of the user lookup. -/
def isSuperuser (u : Option User) : Bool :=
  match u with
  | some user => user.is_superuser
  | none => false

/-- `PermissionService.check_folder_permission`, embedded line by line with
explicit recursion fuel for the parent walk.  The Python body: superuser
check first, then folder lookup (raising `NotFoundException` when absent),
then owner check, then the explicit permission entry (returning `True` only
when `is_admin` or the requested flag is set), then — falling through, even
when an entry exists with all-false flags — recursion on the parent. -/
def check_folder_permission (db : DB) : Nat → Nat → Nat → String → Except AppError Bool
  | 0, _, _, _ => .error (.badRequest "maximum recursion depth exceeded")
  | fuel + 1, user_id, folder_id, permission_type =>
    let user := db.users.find? (fun u => u.user_id == user_id)
    if isSuperuser user then
      .ok true
    else
      match db.folders.find? (fun f => f.id == folder_id) with
      | none => .error (.notFound "Folder not found")
      | some folder =>
        if folder.owner_id == user_id then
          .ok true
        else
          let permission := db.permissions.find?
            (fun p => p.user_id == user_id && p.folder_id == folder_id)
          match permission with
          | some p =>
            if p.is_admin then .ok true
            else if permission_type == "read" && p.can_read then .ok true
            else if permission_type == "write" && p.can_write then .ok true
            else if permission_type == "delete" && p.can_delete then .ok true
            else
              match folder.parent_id with
              | some pid => check_folder_permission db fuel user_id pid permission_type
              | none => .ok false
          | none =>
            match folder.parent_id with
            | some pid => check_folder_permission db fuel user_id pid permission_type
            | none => .ok false

/-- Whether a permission entry grants `permission_type`, i.e. the disjunction
of the four `return True` tests the entry block of
`check_folder_permission` performs. -/
def permissionGrants (p : Permission) (permission_type : String) : Bool :=
  p.is_admin
    || (permission_type == "read" && p.can_read)
    || (permission_type == "write" && p.can_write)
    || (permission_type == "delete" && p.can_delete)

/-- `PermissionService.get_user_accessible_folders`: superusers see every
folder; otherwise owned folders plus folders with an explicit entry having at
least one true flag, deduplicated by folder id keeping first position and the
last value, as Python's `{f.id: f for f in all_folders}` does. -/
def dictInsertFolder (acc : List (Nat × Folder)) (f : Folder) : List (Nat × Folder) :=
  if acc.any (fun kv => kv.1 == f.id) then
    acc.map (fun kv => if kv.1 == f.id then (kv.1, f) else kv)
  else
    acc ++ [(f.id, f)]

def get_user_accessible_folders (db : DB) (user_id : Nat) : List Folder :=
  let user := db.users.find? (fun u => u.user_id == user_id)
  if isSuperuser user then
    db.folders
  else
    let owned_folders := db.folders.filter (fun f => f.owner_id == user_id)
    let permissions := db.permissions.filter
      (fun p => p.user_id == user_id
        && (p.can_read || p.can_write || p.can_delete || p.is_admin))
    let permitted_folder_ids := permissions.map (fun p => p.folder_id)
    let permitted_folders := db.folders.filter
      (fun f => permitted_folder_ids.contains f.id)
    let all_folders := owned_folders ++ permitted_folders
    ((all_folders.foldl dictInsertFolder []).map (fun kv => kv.2))

/-! ### Concrete scenario for the permission claims: root folder A (id 1)
grants user 7 read, child folder B (id 2) has an explicit all-false entry
for user 7; both folders are owned by user 99. -/

def permDB : DB :=
  { users := [⟨7, false⟩, ⟨99, false⟩, ⟨42, true⟩]
    folders := [⟨1, "A", 99, none⟩, ⟨2, "B", 99, some 1⟩]
    permissions :=
      [⟨7, 1, true, false, false, false⟩, ⟨7, 2, false, false, false, false⟩]
    documents := []
    embeddings := [] }

/-! ## EmbeddingService (`app/services/embedding_service.py`) -/

/-- One row of the result set of the similarity-search SQL query in
`EmbeddingService.search_similar_chunks` (its SELECT list). -/
structure SearchResult where
  id : Nat
  document_id : Nat
  document_name : String
  folder_id : Nat
  folder_name : String
  chunk_index : Nat
  chunk_text : String
  similarity_score : ℤ
  deriving Repr, DecidableEq

/-- The joined, filtered row set of the search query: `embeddings JOIN
documents JOIN folders` restricted by `d.folder_id IN folder_ids` and
`1 - (e.embedding <=> q) >= min_similarity`, in table order.  `dist` is the
opaque `<=>` cosine-distance operator. -/
def qualifying_rows (db : DB) (dist : List ℤ → List ℤ → ℤ) (query_embedding : List ℤ)
    (folder_ids : List Nat) (min_similarity : ℤ) : List SearchResult :=
  db.embeddings.flatMap (fun e =>
    db.documents.flatMap (fun d =>
      db.folders.filterMap (fun f =>
        if e.document_id == d.id && d.folder_id == f.id
            && folder_ids.contains d.folder_id
            && decide (min_similarity ≤ 1 - dist e.embedding query_embedding)
        then some
          { id := e.id
            document_id := e.document_id
            document_name := d.filename
            folder_id := d.folder_id
            folder_name := f.name
            chunk_index := e.chunk_index
            chunk_text := e.chunk_text
            similarity_score := 1 - dist e.embedding query_embedding }
        else none)))

/-- The `ORDER BY e.embedding <=> :query_embedding` key: ascending distance,
i.e. ascending `1 - similarity_score`. -/
def searchOrder (a b : SearchResult) : Prop :=
  1 - a.similarity_score ≤ 1 - b.similarity_score

instance : DecidableRel searchOrder := fun a b =>
  inferInstanceAs (Decidable (1 - a.similarity_score ≤ 1 - b.similarity_score))

instance : IsTotal SearchResult searchOrder :=
  ⟨fun a b => le_total (1 - a.similarity_score) (1 - b.similarity_score)⟩

instance : IsTrans SearchResult searchOrder :=
  ⟨fun _ _ _ hab hbc => le_trans hab hbc⟩

/-- `EmbeddingService.search_similar_chunks`.  An empty `folder_ids` list is
interpolated into the SQL as `IN ()`, a syntax error, which the except-block
re-raises as `BadRequestException`; otherwise the filtered rows are sorted by
distance and truncated by `LIMIT`. -/
def search_similar_chunks (db : DB) (dist : List ℤ → List ℤ → ℤ)
    (query_embedding : List ℤ) (folder_ids : List Nat) (limit : Nat)
    (min_similarity : ℤ) : Except AppError (List SearchResult) :=
  if folder_ids.isEmpty then
    .error (.badRequest "Failed to search similar chunks")
  else
    .ok (((qualifying_rows db dist query_embedding folder_ids
      min_similarity).insertionSort searchOrder).take limit)

/-- All stored chunks of one document, in table order. -/
def chunksFor (db : DB) (document_id : Nat) : List EmbeddingRow :=
  db.embeddings.filter (fun e => e.document_id == document_id)

/-- The rows built by the `for i, (chunk_data, embedding) in
enumerate(zip(...))` insertion loop of `process_document_embeddings`:
`chunk_index` is the enumeration index (the surrogate row id is the same
index). -/
def newRecords (document_id : Nat) (chunk_texts : List String)
    (embeddings : List (List ℤ)) : List EmbeddingRow :=
  (chunk_texts.zip embeddings).enum.map
    (fun ie =>
      { id := ie.1
        document_id := document_id
        chunk_index := ie.1
        chunk_text := ie.2.1
        embedding := ie.2.2 : EmbeddingRow })

/-- The try-block of `process_document_embeddings`
(`embedding_service.py:62-112`), started from the state `db1` committed by
the preceding delete: extract text (empty text, no chunks, or an embedding
failure raise `BadRequestException`), then insert all new chunk rows and
commit.  A raise rolls back to `db1`. -/
def process_try_block (db1 : DB) (document_id : Nat)
    (extract_text : Except AppError String)
    (chunker : String → List String)
    (embedder : List String → Except AppError (List (List ℤ))) :
    DB × Except AppError (List EmbeddingRow) :=
  match extract_text with
  | .error _ => (db1, .error (.badRequest "Failed to process document embeddings"))
  | .ok text =>
    if pyStrip text == "" then
      (db1, .error (.badRequest "Failed to process document embeddings"))
    else if (chunker text).isEmpty then
      (db1, .error (.badRequest "Failed to process document embeddings"))
    else
      match embedder (chunker text) with
      | .error _ =>
        (db1, .error (.badRequest "Failed to process document embeddings"))
      | .ok embeddings =>
        ({ db1 with embeddings :=
            db1.embeddings ++ newRecords document_id (chunker text) embeddings },
         .ok (newRecords document_id (chunker text) embeddings))

def process_document_embeddings (db : DB) (document_id : Nat)
    (extract_text : Except AppError String)
    (chunker : String → List String)
    (embedder : List String → Except AppError (List (List ℤ))) :
    DB × Except AppError (List EmbeddingRow) :=
  match db.documents.find? (fun d => d.id == document_id) with
  | none => (db, .error (.notFound "Document not found"))
  | some _document =>
    process_try_block
      (if db.embeddings.any (fun e => e.document_id == document_id) then
        { db with embeddings :=
            db.embeddings.filter (fun e => !(e.document_id == document_id)) }
      else db)
      document_id extract_text chunker embedder

/-- A model `<=>` operator for concrete instances: distance
`1 - ⟨v, w⟩`, the cosine distance of unit vectors in the fixed-point view. -/
def innerProductDistance (v w : List ℤ) : ℤ :=
  1 - (List.zipWith (fun a b => a * b) v w).sum

/-- The position of a document in the documents table (its insertion order). -/
def docPosition (db : DB) (document_id : Nat) : Nat :=
  match db.documents.findIdx? (fun d => d.id == document_id) with
  | some i => i
  | none => db.documents.length

/-- The ordering C8 claims for search results: descending similarity, ties by
ascending chunk ordinal, then by document insertion order. -/
def claimOrdered (db : DB) : List SearchResult → Bool
  | [] => true
  | [_] => true
  | a :: b :: rest =>
    (decide (b.similarity_score < a.similarity_score)
      || (a.similarity_score == b.similarity_score
          && (decide (a.chunk_index < b.chunk_index)
              || (a.chunk_index == b.chunk_index
                  && decide (docPosition db a.document_id ≤ docPosition db b.document_id)))))
    && claimOrdered db (b :: rest)


/-! ### Concrete scenarios for the retrieval claims -/

/-- Two documents in one authorized folder; both chunks have the same vector,
hence the same distance to any query.  Document 1 (inserted first) carries
chunk ordinal 5, document 2 carries chunk ordinal 0. -/
def tieDB : DB :=
  { users := []
    folders := [⟨1, "F", 1, none⟩]
    permissions := []
    documents := [⟨1, 1, "d1"⟩, ⟨2, 1, "d2"⟩]
    embeddings := [⟨1, 1, 5, "t1", [1]⟩, ⟨2, 2, 0, "t2", [1]⟩] }

/-- One chunk in authorized folder 1, one chunk in unauthorized folder 2. -/
def scopeDB : DB :=
  { users := [⟨1, false⟩]
    folders := [⟨1, "F1", 1, none⟩, ⟨2, "F2", 2, none⟩]
    permissions := []
    documents := [⟨1, 1, "a.txt"⟩, ⟨2, 2, "b.txt"⟩]
    embeddings := [⟨1, 1, 0, "c1", [1]⟩, ⟨2, 2, 0, "c2", [1]⟩] }

/-- A document (id 1) that already has one stored chunk, for re-ingestion. -/
def ingrDB : DB :=
  { users := []
    folders := [⟨1, "F", 1, none⟩]
    permissions := []
    documents := [⟨1, 1, "doc.txt"⟩]
    embeddings := [⟨100, 1, 0, "old", [1]⟩] }


/-! ## RAG services (`app/services/rag_service.py` and
`app/services/rag_service_enhanced.py`) -/

structure ChatMessage where
  role : String
  content : String
  deriving Repr, DecidableEq

/-- The trailing context window `messages[-(max_history + 1):-1]` when
`len(messages) > max_history`, else `messages[:-1]`. -/
def context_window (messages : List ChatMessage) (max_history : Nat) :
    List ChatMessage :=
  if max_history < messages.length then
    (messages.drop (messages.length - (max_history + 1))).dropLast
  else
    messages.dropLast

/-- The user prompt both reformulators send to the completion service. -/
def reformulation_user_prompt (context_messages : List ChatMessage)
    (latest_query : String) : String :=
  "Conversation history:\n" ++
    String.intercalate "\n"
      (context_messages.map (fun m => pyUpper m.role ++ ": " ++ m.content)) ++
    "\n\nLatest user query: " ++ latest_query ++
    "\n\nReformulated standalone query:"

/-- `RAGService._reformulate_query` (`rag_service.py:244-313`).  The
completion service is the oracle `completion` (an `error` models a raised
exception, caught by the surrounding try).  The returned text is stripped
and validated: falls back to the latest user query when empty or shorter
than 5 characters.  This base service has **no** echo check. -/
def reformulate_query (messages : List ChatMessage) (max_history : Nat)
    (completion : String → Except AppError String) : Except AppError String :=
  match (messages.filter (fun m => m.role == "user")).getLast? with
  | none => .error (.badRequest "No user messages found in conversation history")
  | some last =>
    if messages.length ≤ 1 then .ok last.content
    else
      match completion (reformulation_user_prompt
          (context_window messages max_history) last.content) with
      | .error _ => .ok last.content
      | .ok raw =>
        if pyStrip raw == "" || decide (pyLen (pyStrip raw) < 5) then
          .ok last.content
        else .ok (pyStrip raw)

/-- `EnhancedRAGService._reformulate_query`
(`rag_service_enhanced.py:416-485`): identical to the base service except
the validation also falls back when the stripped rewrite is
case-insensitively identical to the latest query. -/
def reformulate_query_enhanced (messages : List ChatMessage) (max_history : Nat)
    (completion : String → Except AppError String) : Except AppError String :=
  match (messages.filter (fun m => m.role == "user")).getLast? with
  | none => .error (.badRequest "No user messages found in conversation history")
  | some last =>
    if messages.length ≤ 1 then .ok last.content
    else
      match completion (reformulation_user_prompt
          (context_window messages max_history) last.content) with
      | .error _ => .ok last.content
      | .ok raw =>
        if pyStrip raw == "" || decide (pyLen (pyStrip raw) < 5)
            || pyLower (pyStrip raw) == pyLower last.content then
          .ok last.content
        else .ok (pyStrip raw)

structure RAGQuery where
  query : String
  folder_ids : Option (List Nat)
  limit : Nat
  min_relevance_score : ℤ
  deriving Repr

structure RAGChunk where
  document_id : Nat
  document_name : String
  folder_id : Nat
  folder_name : String
  chunk_text : String
  relevance_score : ℤ
  deriving Repr, DecidableEq

/-- `RAGResponse` without `processing_time` (wall-clock time is outside the
model). -/
structure RAGResponse where
  query : String
  answer : String
  sources : List RAGChunk
  total_chunks : Nat
  deriving Repr, DecidableEq

/-- `RAGService._get_accessible_folders`: all accessible folder ids, filtered
to the requested ids when a non-empty request list is given (Python's `if
requested_folder_ids:` treats `None` and `[]` alike). -/
def get_accessible_folder_ids (db : DB) (user_id : Nat)
    (requested : Option (List Nat)) : List Nat :=
  let accessible_folder_ids :=
    (get_user_accessible_folders db user_id).map (fun f => f.id)
  match requested with
  | some rs =>
    if rs.isEmpty then accessible_folder_ids
    else rs.filter (fun fid => accessible_folder_ids.contains fid)
  | none => accessible_folder_ids

/-- `RAGService.query` (`rag_service.py:21-86`): accessible folders, then
query embedding (oracle `embed`), then the scoped similarity search; an
empty hit list short-circuits to the fixed no-results response before the
answer-generation oracle `gen_answer` is consulted. -/
def rag_query (db : DB) (dist : List ℤ → List ℤ → ℤ)
    (embed : String → Except AppError (List ℤ))
    (gen_answer : String → List SearchResult → Except AppError String)
    (user_id : Nat) (q : RAGQuery) : Except AppError RAGResponse :=
  let accessible_folders := get_accessible_folder_ids db user_id q.folder_ids
  if accessible_folders.isEmpty then
    .error (.permissionDenied "No accessible folders found for query")
  else
    match embed q.query with
    | .error e => .error e
    | .ok query_embedding =>
      match search_similar_chunks db dist query_embedding accessible_folders
          q.limit q.min_relevance_score with
      | .error e => .error e
      | .ok similar_chunks =>
        if similar_chunks.isEmpty then
          .ok { query := q.query
                answer := "No relevant documents found for your query."
                sources := []
                total_chunks := 0 }
        else
          match gen_answer q.query similar_chunks with
          | .error e => .error e
          | .ok answer =>
            .ok { query := q.query
                  answer := answer
                  sources := similar_chunks.map (fun c =>
                    { document_id := c.document_id
                      document_name := c.document_name
                      folder_id := c.folder_id
                      folder_name := c.folder_name
                      chunk_text := c.chunk_text
                      relevance_score := c.similarity_score })
                  total_chunks := similar_chunks.length }

/-- Conversation whose completion echoes the latest query in capitals. -/
def echoMessages : List ChatMessage :=
  [⟨"user", "hello"⟩, ⟨"assistant", "hi there"⟩, ⟨"user", "hello"⟩]

/-- Superuser 1 over one folder with no stored chunks. -/
def ragDB : DB :=
  { users := [⟨1, true⟩]
    folders := [⟨1, "F", 2, none⟩]
    permissions := []
    documents := []
    embeddings := [] }


/-! ## QueryRouter: classification and file selection
(`app/services/rag_service_enhanced.py`) -/

/-- One entry of the `available_files`/`all_csv_excel_docs` dictionaries:
filename plus materialized column names. -/
structure DatasetFile where
  filename : String
  columns : List String
  deriving Repr, DecidableEq

/-- The system/documentation-intent keyword list of `_is_csv_excel_query`
(`rag_service_enhanced.py:963-967`). -/
def system_keywords : List String :=
  ["how to", "what is", "explain", "describe", "setup", "configuration",
   "architecture", "feature", "capability", "system", "framework", "poc",
   "report", "documentation", "guide", "overview"]

/-- The keyword list of the classifier-failure fallback
(`rag_service_enhanced.py:1047`). -/
def fallback_data_keywords : List String :=
  ["average", "sum", "count", "total", "top", "highest", "lowest", "minimum",
   "maximum", "mean", "median", "filter", "sort", "aggregate", "group by",
   "wise"]

/-- The classifier prompt, reduced to its data content (the question and the
filename/column-count descriptions); the instruction text around it only
matters to the external service, which is the opaque oracle here. -/
def classification_prompt (query : String) (files : List DatasetFile) : String :=
  query ++ "\n" ++
    String.intercalate "\n" (files.map (fun f =>
      "- " ++ f.filename ++ ": " ++ toString f.columns.length ++ " columns"))

/-- `EnhancedRAGService._is_csv_excel_query`, from the point where the
CSV/Excel document list has been assembled (`rag_service_enhanced.py:
951-1058`): no tabular files → `(False, [])`; a system keyword in the
lowercased question → `(False, [])` before the classifier is consulted;
otherwise the LLM oracle decides, `"STRUCTURED"` mapping to
`(True, mcp_files or all_csv_excel_docs)`, and on a raised classifier error
a data-keyword fallback decides.  `True` stands for the STRUCTURED route,
`False` for the UNSTRUCTURED (RAG) route. -/
def is_csv_excel_query (query : String) (all_csv_excel_docs : List DatasetFile)
    (mcp_files : List DatasetFile) (llm : String → Except AppError String) :
    Bool × List DatasetFile :=
  if all_csv_excel_docs.isEmpty then (false, [])
  else
    if system_keywords.any (fun k => strContains (pyLower query) k) then
      (false, [])
    else
      match llm (classification_prompt query all_csv_excel_docs) with
      | .ok response =>
        if pyUpper (pyStrip response) == "STRUCTURED" then
          (true, if mcp_files.isEmpty then all_csv_excel_docs else mcp_files)
        else (false, [])
      | .error _ =>
        if fallback_data_keywords.any (fun k => strContains (pyLower query) k)
            && !all_csv_excel_docs.isEmpty then
          (true, if mcp_files.isEmpty then all_csv_excel_docs else mcp_files)
        else (false, [])

/-- The stop-word set of `_select_best_file_for_question`
(`rag_service_enhanced.py:1078-1080`); the Python set literal lists `had`,
`has` and `how` twice, which a set collapses. -/
def selection_stop_words : List String :=
  ["the", "and", "for", "with", "from", "what", "which", "who", "how",
   "when", "where", "why", "are", "was", "were", "has", "have", "had",
   "but", "can", "did", "does", "may", "might", "must", "need", "shall",
   "should", "will", "would", "give", "me", "data", "information"]

/-- The `key_terms` set of `_select_best_file_for_question`: lowercase the
question, delete `?` and `!`, split on whitespace; keep words longer than 2
characters that are not stop words, and **also** every word containing an
underscore or a digit.  `dedup` gives the Python set semantics (each
distinct word once; the survivor's position is irrelevant because scoring
sums independent per-term contributions). -/
def question_key_terms (question : String) : List String :=
  let question_words :=
    pySplit (pyRemoveChar (pyRemoveChar (pyLower question) (Char.ofNat 63))
      (Char.ofNat 33))
  (question_words.filter
      (fun w => decide (2 < pyLen w) && !(selection_stop_words.contains w)) ++
    question_words.filter
      (fun w => w.toList.contains (Char.ofNat 95)
        || w.toList.any (fun c => c.isDigit))).dedup

/-- The per-file score: for each key term, +10 when the term and some
column name contain one another (first matching column only), and
additionally +2 when the term occurs in the lowercased filename. -/
def file_score (key_terms : List String) (file : DatasetFile) : Nat :=
  key_terms.foldl
    (fun score term =>
      let score :=
        if (file.columns.map pyLower).any
            (fun col => strContains col term || strContains term col) then
          score + 10
        else score
      if strContains (pyLower file.filename) term then score + 2 else score)
    0

/-- Python dict assignment `file_scores[filename] = entry`: overwrite in
place when the key exists, else append. -/
def dictInsertScore (acc : List (String × Nat × DatasetFile)) (fname : String)
    (score : Nat) (f : DatasetFile) : List (String × Nat × DatasetFile) :=
  if acc.any (fun kv => kv.1 == fname) then
    acc.map (fun kv => if kv.1 == fname then (fname, score, f) else kv)
  else
    acc ++ [(fname, score, f)]

/-- One step of Python's `max(items, key=score)`: keep the current best on
ties, replace only on a strictly larger score, so the first maximal item
wins. -/
def pyMaxStep (best : Option (String × Nat × DatasetFile))
    (x : String × Nat × DatasetFile) : Option (String × Nat × DatasetFile) :=
  match best with
  | none => some x
  | some b => if b.2.1 < x.2.1 then some x else some b

def pyMaxEntry (l : List (String × Nat × DatasetFile)) :
    Option (String × Nat × DatasetFile) :=
  l.foldl pyMaxStep none

/-- `EnhancedRAGService._select_best_file_for_question`
(`rag_service_enhanced.py:1060-1138`). -/
def select_best_file_for_question (question : String)
    (available_files : List DatasetFile) : Option DatasetFile :=
  if available_files.length == 1 then available_files.head?
  else if available_files.isEmpty then none
  else
    let key_terms := question_key_terms question
    let file_scores := available_files.foldl
      (fun acc f => dictInsertScore acc f.filename (file_score key_terms f) f) []
    match pyMaxEntry file_scores with
    | some best =>
      if 0 < best.2.1 then some best.2.2 else available_files.head?
    | none => available_files.head?

/-- The element the selection contract designates: the first dataset in
input order attaining the maximal score (which is also the first dataset
when the maximal score is 0). -/
def firstArgmaxStep (s : DatasetFile → Nat) (best : Option DatasetFile)
    (f : DatasetFile) : Option DatasetFile :=
  match best with
  | none => some f
  | some b => if s b < s f then some f else some b

def firstArgmax (s : DatasetFile → Nat) (files : List DatasetFile) :
    Option DatasetFile :=
  files.foldl (firstArgmaxStep s) none

/-- The key terms exactly as claim C6 words them: stop words and words of
length at most 2 are discarded — with no underscore/digit exemption. -/
def claim_key_terms (question : String) : List String :=
  ((pySplit (pyRemoveChar (pyRemoveChar (pyLower question) (Char.ofNat 63))
      (Char.ofNat 33))).filter
    (fun w => decide (2 < pyLen w) && !(selection_stop_words.contains w))).dedup

def claim_file_score (question : String) (file : DatasetFile) : Nat :=
  file_score (claim_key_terms question) file

end Radex
namespace Radex

/-! ## Claims about `check_folder_permission` -/

/-- C1 counterexample. The claim asserts an explicit entry always terminates
the ancestor search, so `can(U, B, read)` would be `false` for user 7 on
folder B (id 2), whose explicit entry has all flags false.  The code instead
falls through to the parent A (id 1), whose entry grants read, and returns
`true`. -/
theorem explicit_deny_entry_does_not_shadow_cx :
    check_folder_permission permDB 10 7 2 "read" = .ok true ∧
    check_folder_permission permDB 10 7 1 "read" = .ok true :=
  ⟨rfl, rfl⟩

/-- C1 amended. For a non-superuser, non-owner user with an explicit entry on
the folder: the entry terminates the search with `true` exactly when it
grants the action (admin flag or the action's flag); a non-granting entry
does *not* terminate the search — the check continues at the parent (and is
`false` at a root). -/
theorem check_folder_permission_entry_semantics
    (db : DB) (fuel user_id folder_id : Nat) (permission_type : String)
    (folder : Folder) (p : Permission)
    (huser : isSuperuser (db.users.find? (fun u => u.user_id == user_id)) = false)
    (hfolder : db.folders.find? (fun f => f.id == folder_id) = some folder)
    (howner : (folder.owner_id == user_id) = false)
    (hperm : db.permissions.find?
        (fun q => q.user_id == user_id && q.folder_id == folder_id) = some p) :
    (permissionGrants p permission_type = true →
      check_folder_permission db (fuel + 1) user_id folder_id permission_type =
        Except.ok true) ∧
    (permissionGrants p permission_type = false →
      check_folder_permission db (fuel + 1) user_id folder_id permission_type =
        match folder.parent_id with
        | some pid => check_folder_permission db fuel user_id pid permission_type
        | none => Except.ok false) := by
  constructor
  · intro hgrant
    simp only [check_folder_permission, huser, hfolder, howner, hperm,
      Bool.false_eq_true, if_false]
    simp only [permissionGrants, Bool.or_eq_true] at hgrant
    split_ifs <;> simp_all
  · intro hgrant
    simp only [permissionGrants, Bool.or_eq_false_iff] at hgrant
    obtain ⟨⟨⟨hA, hR⟩, hW⟩, hD⟩ := hgrant
    simp only [check_folder_permission, huser, hfolder, howner, hperm, hA, hR, hW, hD,
      Bool.false_eq_true, if_false]

/-- C1 amended, witness: in the concrete scenario, the all-false entry on
folder B does not stop the search — checking B is the same as checking its
parent A (with one unit of fuel spent). -/
theorem check_folder_permission_entry_semantics_witness :
    check_folder_permission permDB 10 7 2 "read" =
      check_folder_permission permDB 9 7 1 "read" := by
  have h := (check_folder_permission_entry_semantics permDB 9 7 2 "read"
    ⟨2, "B", 99, some 1⟩ ⟨7, 2, false, false, false, false⟩ rfl rfl rfl rfl).2 rfl
  simpa using h

/-- C4 counterexample. The claim asserts `can` never throws for a missing
folder given directly; for the non-superuser user 7 and the absent folder
id 99, the code raises `NotFoundException("Folder not found")`. -/
theorem check_missing_folder_throws_cx :
    check_folder_permission permDB 10 7 99 "read" =
      .error (.notFound "Folder not found") :=
  rfl

/-- C4 amended. When the caller is not a superuser and the folder id given
directly does not refer to an existing folder, `check_folder_permission`
raises `NotFoundException` (only the superuser short-circuit avoids the
lookup). -/
theorem check_folder_permission_missing_folder_raises
    (db : DB) (fuel user_id folder_id : Nat) (permission_type : String)
    (huser : isSuperuser (db.users.find? (fun u => u.user_id == user_id)) = false)
    (hfolder : db.folders.find? (fun f => f.id == folder_id) = none) :
    check_folder_permission db (fuel + 1) user_id folder_id permission_type =
      .error (.notFound "Folder not found") := by
  simp only [check_folder_permission, huser, hfolder, Bool.false_eq_true, if_false]

/-- C4 amended, witness: user 7 is not a superuser, folder 123 does not
exist, and the check raises. -/
theorem check_folder_permission_missing_folder_raises_witness :
    check_folder_permission permDB 10 7 123 "write" =
      .error (.notFound "Folder not found") :=
  check_folder_permission_missing_folder_raises permDB 9 7 123 "write" rfl rfl

/-- C10. The superuser short-circuit is evaluated before the folder lookup,
so a superuser gets `true` for every action on every folder identifier —
including identifiers with no folder record — without raising. -/
theorem superuser_bypasses_folder_lookup
    (db : DB) (fuel user_id folder_id : Nat) (permission_type : String)
    (u : User)
    (huser : db.users.find? (fun v => v.user_id == user_id) = some u)
    (hsuper : u.is_superuser = true) :
    check_folder_permission db (fuel + 1) user_id folder_id permission_type =
      .ok true := by
  simp only [check_folder_permission, huser, isSuperuser, hsuper, if_true]

/-- C10 witness: user 42 is a superuser, folder id 999 has no folder record,
and the check still returns `true` for delete. -/
theorem superuser_bypasses_folder_lookup_witness :
    permDB.folders.find? (fun f => f.id == 999) = none ∧
    check_folder_permission permDB 10 42 999 "delete" = .ok true :=
  ⟨rfl, superuser_bypasses_folder_lookup permDB 9 42 999 "delete" ⟨42, true⟩ rfl rfl⟩

end Radex
namespace Radex

/-! ## Claims about `EmbeddingService` -/

/-- C2. For a non-empty folder scope, the search returns `ok` (never an
error), every returned element's owning folder is in the scope with
similarity at least `min_similarity` (the filter sits in the SQL itself),
and when no chunk qualifies the result is the empty list. -/
theorem search_results_scoped_and_thresholded
    (db : DB) (dist : List ℤ → List ℤ → ℤ) (query_embedding : List ℤ)
    (folder_ids : List Nat) (limit : Nat) (min_similarity : ℤ)
    (hne : folder_ids ≠ []) :
    ∃ rs, search_similar_chunks db dist query_embedding folder_ids limit
        min_similarity = .ok rs ∧
      (∀ r ∈ rs, r.folder_id ∈ folder_ids ∧ min_similarity ≤ r.similarity_score) ∧
      (qualifying_rows db dist query_embedding folder_ids min_similarity = [] →
        rs = []) := by
  have hni : folder_ids.isEmpty = false := by
    cases folder_ids with
    | nil => exact absurd rfl hne
    | cons a l => rfl
  refine ⟨((qualifying_rows db dist query_embedding folder_ids
      min_similarity).insertionSort searchOrder).take limit, ?_, ?_, ?_⟩
  · simp [search_similar_chunks, hni]
  · intro r hr
    have hr2 : r ∈ qualifying_rows db dist query_embedding folder_ids min_similarity :=
      (List.perm_insertionSort searchOrder _).mem_iff.mp (List.take_subset _ _ hr)
    simp only [qualifying_rows, List.mem_flatMap, List.mem_filterMap] at hr2
    obtain ⟨e, he, d, hd, f, hf, hcond⟩ := hr2
    rw [Option.ite_none_right_eq_some] at hcond
    obtain ⟨hc, hrec⟩ := hcond
    simp only [Bool.and_eq_true, beq_iff_eq, decide_eq_true_eq] at hc
    obtain ⟨⟨⟨hed, hdf⟩, hin⟩, hsim⟩ := hc
    cases Option.some.inj hrec
    constructor
    · simpa [List.contains_iff_exists_mem_beq] using hin
    · exact hsim
  · intro h
    simp [h, List.insertionSort]

/-- C2, witness: in the two-folder database, searching with scope `[1]`
yields only folder-1 chunks above the threshold. -/
theorem search_results_scoped_and_thresholded_witness :
    ([1] : List Nat) ≠ [] ∧
    ∃ rs, search_similar_chunks scopeDB innerProductDistance [1] [1] 10 0 =
        .ok rs ∧
      (∀ r ∈ rs, r.folder_id ∈ [1] ∧ 0 ≤ r.similarity_score) ∧
      (qualifying_rows scopeDB innerProductDistance [1] [1] 0 = [] → rs = []) :=
  ⟨by decide,
    search_results_scoped_and_thresholded scopeDB innerProductDistance [1] [1]
      10 0 (by decide)⟩

/-- C8 counterexample. In `tieDB` both qualifying chunks have equal
similarity; the claim's order (ties by ascending chunk ordinal before
document insertion order) requires document 2's ordinal-0 chunk first, but
the query has no tie-break clause and the (stable) execution returns the
rows in table order: document 1's ordinal-5 chunk first. -/
theorem search_tie_order_cx :
    search_similar_chunks tieDB innerProductDistance [1] [1] 10 0 =
      .ok [⟨1, 1, "d1", 1, "F", 5, "t1", 1⟩, ⟨2, 2, "d2", 1, "F", 0, "t2", 1⟩] ∧
    claimOrdered tieDB
      [⟨1, 1, "d1", 1, "F", 5, "t1", 1⟩, ⟨2, 2, "d2", 1, "F", 0, "t2", 1⟩] = false :=
  ⟨rfl, rfl⟩

/-- C8 amended. The returned list is ordered by descending similarity; the
query specifies no tie-break, so nothing orders ties by chunk ordinal or
document insertion order (in the stable execution model they keep table
order). -/
theorem search_sorted_by_descending_similarity
    (db : DB) (dist : List ℤ → List ℤ → ℤ) (query_embedding : List ℤ)
    (folder_ids : List Nat) (limit : Nat) (min_similarity : ℤ)
    (hne : folder_ids ≠ []) :
    ∃ rs, search_similar_chunks db dist query_embedding folder_ids limit
        min_similarity = .ok rs ∧
      rs.Pairwise (fun a b => b.similarity_score ≤ a.similarity_score) := by
  have hni : folder_ids.isEmpty = false := by
    cases folder_ids with
    | nil => exact absurd rfl hne
    | cons a l => rfl
  refine ⟨((qualifying_rows db dist query_embedding folder_ids
      min_similarity).insertionSort searchOrder).take limit, ?_, ?_⟩
  · simp [search_similar_chunks, hni]
  · have hs : ((qualifying_rows db dist query_embedding folder_ids
        min_similarity).insertionSort searchOrder).Pairwise searchOrder :=
      List.sorted_insertionSort searchOrder _
    have hs2 := hs.sublist (List.take_sublist limit _)
    refine hs2.imp (fun hab => ?_)
    have hab2 : (1 : ℤ) - _ ≤ 1 - _ := hab
    omega

/-- C8 amended, witness: the tie database search result is pairwise ordered
by descending similarity. -/
theorem search_sorted_by_descending_similarity_witness :
    ([1] : List Nat) ≠ [] ∧
    ∃ rs, search_similar_chunks tieDB innerProductDistance [1] [1] 10 0 =
        .ok rs ∧
      rs.Pairwise (fun a b => b.similarity_score ≤ a.similarity_score) :=
  ⟨by decide,
    search_sorted_by_descending_similarity tieDB innerProductDistance [1] [1]
      10 0 (by decide)⟩

/-- C3 counterexample. Re-ingesting document 1 (which has a stored chunk)
with a failing embedding service leaves the durable state with the old chunk
deleted and nothing inserted: the delete was committed in its own
transaction before the failure, so the claimed atomicity does not hold. -/
theorem reingestion_loses_old_chunks_cx :
    chunksFor ingrDB 1 = [⟨100, 1, 0, "old", [1]⟩] ∧
    process_document_embeddings ingrDB 1 (.ok "new text") (fun t => [t])
        (fun _ => .error (.badRequest "boom")) =
      ({ users := [], folders := [⟨1, "F", 1, none⟩], permissions := []
         documents := [⟨1, 1, "doc.txt"⟩], embeddings := [] },
       .error (.badRequest "Failed to process document embeddings")) :=
  ⟨rfl, rfl⟩

/-- States reachable by the try-block from a state with no chunks for the
document: on success exactly the new records, on failure still no chunks. -/
theorem chunksFor_try_block
    (db1 : DB) (document_id : Nat) (extract_text : Except AppError String)
    (chunker : String → List String)
    (embedder : List String → Except AppError (List (List ℤ)))
    (h : chunksFor db1 document_id = []) :
    (∃ records,
        (process_try_block db1 document_id extract_text chunker embedder).2 =
          .ok records ∧
        chunksFor (process_try_block db1 document_id extract_text chunker
          embedder).1 document_id = records) ∨
    ((∃ e, (process_try_block db1 document_id extract_text chunker
        embedder).2 = .error e) ∧
      chunksFor (process_try_block db1 document_id extract_text chunker
        embedder).1 document_id = []) := by
  unfold process_try_block
  cases extract_text with
  | error e => exact .inr ⟨⟨_, rfl⟩, h⟩
  | ok text =>
    by_cases h1 : (pyStrip text == "") = true
    · simp only [h1, if_true]
      exact .inr ⟨⟨_, rfl⟩, h⟩
    · simp only [eq_false_of_ne_true h1, if_false]
      by_cases h2 : (chunker text).isEmpty = true
      · simp only [h2, if_true]
        exact .inr ⟨⟨_, rfl⟩, h⟩
      · simp only [eq_false_of_ne_true h2, if_false]
        cases hemb : embedder (chunker text) with
        | error e => exact .inr ⟨⟨_, rfl⟩, h⟩
        | ok embeddings =>
          refine .inl ⟨newRecords document_id (chunker text) embeddings, rfl, ?_⟩
          show (db1.embeddings ++ newRecords document_id (chunker text)
            embeddings).filter (fun e => e.document_id == document_id) = _
          rw [List.filter_append]
          rw [chunksFor] at h
          rw [h]
          simp only [List.nil_append]
          rw [List.filter_eq_self]
          intro a ha
          simp only [newRecords, List.mem_map] at ha
          obtain ⟨ie, _, rfl⟩ := ha
          simp

/-- C3 amended. The delete of the prior chunks is committed in its own
transaction before the new chunks are generated, so a failure during
re-ingestion can leave the document with zero chunks; what never occurs is a
partial or mixed chunk set: the document's chunks afterwards are exactly the
complete new set (success), exactly the untouched prior set (failure before
the delete), or empty (failure after the committed delete). -/
theorem process_document_embeddings_no_partial_mix
    (db : DB) (document_id : Nat) (extract_text : Except AppError String)
    (chunker : String → List String)
    (embedder : List String → Except AppError (List (List ℤ))) :
    (∃ records,
        (process_document_embeddings db document_id extract_text chunker
          embedder).2 = .ok records ∧
        chunksFor (process_document_embeddings db document_id extract_text
          chunker embedder).1 document_id = records) ∨
    ((∃ e, (process_document_embeddings db document_id extract_text chunker
        embedder).2 = .error e) ∧
      (chunksFor (process_document_embeddings db document_id extract_text
          chunker embedder).1 document_id = chunksFor db document_id ∨
        chunksFor (process_document_embeddings db document_id extract_text
          chunker embedder).1 document_id = [])) := by
  unfold process_document_embeddings
  cases hfind : db.documents.find? (fun d => d.id == document_id) with
  | none => exact .inr ⟨⟨_, rfl⟩, .inl rfl⟩
  | some doc =>
    have hempty : chunksFor
        (if db.embeddings.any (fun e => e.document_id == document_id) then
          { db with embeddings :=
              db.embeddings.filter (fun e => !(e.document_id == document_id)) }
        else db) document_id = [] := by
      by_cases hany : db.embeddings.any (fun e => e.document_id == document_id) = true
      · simp only [hany, if_true, chunksFor]
        rw [List.filter_eq_nil_iff]
        intro a ha
        have h2 := (List.mem_filter.mp ha).2
        simpa using h2
      · have hall := List.any_eq_false.mp (eq_false_of_ne_true hany)
        simp only [eq_false_of_ne_true hany, if_false, chunksFor]
        rw [List.filter_eq_nil_iff]
        intro a ha
        exact hall a ha
    rcases chunksFor_try_block _ document_id extract_text chunker embedder
        hempty with hres | hres
    · exact .inl hres
    · exact .inr ⟨hres.1, .inr hres.2⟩

end Radex
namespace Radex

/-! ## Claims about the reformulator and `RAGService.query` -/

/-- C5 counterexample. The completion service echoes the latest query
`"hello"` as `"HELLO"` (case-insensitively identical, length ≥ 5).  The
claim says reformulation then returns the original query unchanged, and the
enhanced service does — but the base `RAGService._reformulate_query`, which
the claim also covers, has no echo check and returns `"HELLO"`. -/
theorem reformulate_echo_not_rejected_cx :
    reformulate_query echoMessages 5 (fun _ => .ok "HELLO") = .ok "HELLO" ∧
    reformulate_query_enhanced echoMessages 5 (fun _ => .ok "HELLO") =
      .ok "hello" :=
  ⟨rfl, rfl⟩

/-- C5 amended. With at least two turns and a completion result `raw`: the
enhanced service returns the original latest query when the stripped rewrite
is empty, shorter than 5 characters, or case-insensitively identical to the
latest query, and the stripped rewrite otherwise; the base service applies
only the first two checks — a case-variant echo is returned as the
rewrite. -/
theorem reformulate_validation_semantics
    (messages : List ChatMessage) (max_history : Nat) (raw : String)
    (m : ChatMessage)
    (hlast : (messages.filter (fun x => x.role == "user")).getLast? = some m)
    (hlen : 2 ≤ messages.length) :
    reformulate_query_enhanced messages max_history (fun _ => .ok raw) =
      .ok (if pyStrip raw == "" || decide (pyLen (pyStrip raw) < 5)
            || pyLower (pyStrip raw) == pyLower m.content
          then m.content else pyStrip raw) ∧
    reformulate_query messages max_history (fun _ => .ok raw) =
      .ok (if pyStrip raw == "" || decide (pyLen (pyStrip raw) < 5)
          then m.content else pyStrip raw) := by
  have hgt : ¬ (messages.length ≤ 1) := by omega
  constructor
  · simp only [reformulate_query_enhanced, hlast, if_neg hgt]
    split <;> rfl
  · simp only [reformulate_query, hlast, if_neg hgt]
    split <;> rfl

/-- C5 amended, witness: a genuine rewrite passes validation in both
services. -/
theorem reformulate_validation_semantics_witness :
    reformulate_query_enhanced echoMessages 5
        (fun _ => .ok " What is the data retention policy? ") =
      .ok "What is the data retention policy?" ∧
    reformulate_query echoMessages 5
        (fun _ => .ok " What is the data retention policy? ") =
      .ok "What is the data retention policy?" := by
  have h := reformulate_validation_semantics echoMessages 5
    " What is the data retention policy? " ⟨"user", "hello"⟩ rfl (by decide)
  exact ⟨h.1, h.2⟩

/-- C9. When the accessible folder scope is non-empty, the embedding
succeeds and the scoped search returns no chunks, `RAGService.query` answers
with the fixed literal, zero total chunks and no sources — and does not
raise. -/
theorem rag_query_no_results_literal
    (db : DB) (dist : List ℤ → List ℤ → ℤ)
    (embed : String → Except AppError (List ℤ))
    (gen_answer : String → List SearchResult → Except AppError String)
    (user_id : Nat) (q : RAGQuery) (query_embedding : List ℤ)
    (hacc : get_accessible_folder_ids db user_id q.folder_ids ≠ [])
    (hemb : embed q.query = .ok query_embedding)
    (hsearch : search_similar_chunks db dist query_embedding
        (get_accessible_folder_ids db user_id q.folder_ids) q.limit
        q.min_relevance_score = .ok []) :
    rag_query db dist embed gen_answer user_id q =
      .ok { query := q.query
            answer := "No relevant documents found for your query."
            sources := []
            total_chunks := 0 } := by
  have hni : (get_accessible_folder_ids db user_id q.folder_ids).isEmpty = false := by
    cases hfa : get_accessible_folder_ids db user_id q.folder_ids with
    | nil => exact absurd hfa hacc
    | cons a l => rfl
  simp only [rag_query, hni, Bool.false_eq_true, if_false, hemb, hsearch,
    List.isEmpty_nil, if_true]

/-- C9 witness: with one accessible folder and no stored chunks the query
answers the fixed literal. -/
theorem rag_query_no_results_literal_witness :
    get_accessible_folder_ids ragDB 1 none ≠ [] ∧
    rag_query ragDB innerProductDistance (fun _ => .ok [1])
        (fun _ _ => .ok "unused") 1 ⟨"hi", none, 5, 0⟩ =
      .ok ⟨"hi", "No relevant documents found for your query.", [], 0⟩ :=
  ⟨by decide,
    rag_query_no_results_literal ragDB innerProductDistance (fun _ => .ok [1])
      (fun _ _ => .ok "unused") 1 ⟨"hi", none, 5, 0⟩ [1] (by decide) rfl rfl⟩

end Radex
namespace Radex

/-! ## Claims about the QueryRouter -/

/-- C7. A system/documentation-intent keyword in the question routes it to
document retrieval (UNSTRUCTURED) before the classifier or any data-shape
cue is consulted, whatever datasets are available. -/
theorem system_keyword_classifies_unstructured
    (query : String) (all_csv_excel_docs mcp_files : List DatasetFile)
    (llm : String → Except AppError String)
    (hkw : system_keywords.any (fun k => strContains (pyLower query) k) = true) :
    (is_csv_excel_query query all_csv_excel_docs mcp_files llm).1 = false := by
  unfold is_csv_excel_query
  by_cases hd : all_csv_excel_docs.isEmpty = true
  · simp [hd]
  · simp [eq_false_of_ne_true hd, hkw]

/-- C7 witness: `"what is encryption?"` is classified UNSTRUCTURED with a
non-empty dataset list even when the classifier oracle would answer
STRUCTURED. -/
theorem system_keyword_classifies_unstructured_witness :
    system_keywords.any
      (fun k => strContains (pyLower "what is encryption?") k) = true ∧
    (is_csv_excel_query "what is encryption?"
      [⟨"sales.csv", ["region", "total"]⟩] []
      (fun _ => .ok "STRUCTURED")).1 = false :=
  ⟨rfl,
    system_keyword_classifies_unstructured "what is encryption?"
      [⟨"sales.csv", ["region", "total"]⟩] [] (fun _ => .ok "STRUCTURED") rfl⟩

/-- C6 counterexample. The claim discards every token of length ≤ 2, so for
question `"x1"` both datasets score 0 and the claim requires the first
dataset (`alpha.csv`); the code re-adds words containing a digit or an
underscore to the key terms, scores `beta.csv` (column `x1`) 10 and selects
it. -/
theorem select_file_digit_token_cx :
    select_best_file_for_question "x1"
        [⟨"alpha.csv", ["zz"]⟩, ⟨"beta.csv", ["x1"]⟩] =
      some ⟨"beta.csv", ["x1"]⟩ ∧
    claim_file_score "x1" ⟨"alpha.csv", ["zz"]⟩ = 0 ∧
    claim_file_score "x1" ⟨"beta.csv", ["x1"]⟩ = 0 ∧
    some (⟨"beta.csv", ["x1"]⟩ : DatasetFile) ≠ some ⟨"alpha.csv", ["zz"]⟩ :=
  ⟨rfl, rfl, rfl, by decide⟩

/-- `file_scores[filename] = entry` assignments over fresh keys build the
plain list of entries in input order. -/
theorem dictInsertScore_fresh_foldl (s : DatasetFile → Nat) :
    ∀ (files : List DatasetFile) (acc : List (String × Nat × DatasetFile)),
      (∀ f ∈ files, ∀ kv ∈ acc, kv.1 ≠ f.filename) →
      (files.map (fun f => f.filename)).Nodup →
      files.foldl (fun a f => dictInsertScore a f.filename (s f) f) acc =
        acc ++ files.map (fun f => (f.filename, s f, f)) := by
  intro files
  induction files with
  | nil => intro acc _ _; simp
  | cons f fs ih =>
    intro acc hfresh hnd
    simp only [List.foldl_cons, List.map_cons]
    have hnotin : acc.any (fun kv => kv.1 == f.filename) = false := by
      rw [List.any_eq_false]
      intro kv hkv
      simp only [beq_iff_eq]
      exact hfresh f (List.mem_cons_self f fs) kv hkv
    rw [show dictInsertScore acc f.filename (s f) f =
        acc ++ [(f.filename, s f, f)] by
      unfold dictInsertScore
      rw [hnotin]
      rfl]
    rw [List.map_cons, List.nodup_cons] at hnd
    rw [ih (acc ++ [(f.filename, s f, f)]) ?_ hnd.2]
    · simp
    · intro g hg kv hkv
      rcases List.mem_append.mp hkv with hkv | hkv
      · exact hfresh g (List.mem_cons_of_mem f hg) kv hkv
      · have hkv2 : kv = (f.filename, s f, f) := List.mem_singleton.mp hkv
        subst hkv2
        intro hcontra
        apply hnd.1
        rw [show f.filename = g.filename from hcontra]
        exact List.mem_map_of_mem (fun x => x.filename) hg

/-- Python's first-maximal `max` over the entry list coincides with the
first-maximal dataset under the score embedding. -/
theorem pyMax_map_foldl (s : DatasetFile → Nat) :
    ∀ (files : List DatasetFile) (b : Option DatasetFile),
      (files.map (fun f => (f.filename, s f, f))).foldl pyMaxStep
        (b.map (fun f => (f.filename, s f, f))) =
      (files.foldl (firstArgmaxStep s) b).map
        (fun f => (f.filename, s f, f)) := by
  intro files
  induction files with
  | nil => intro b; simp
  | cons f fs ih =>
    intro b
    simp only [List.map_cons, List.foldl_cons]
    rw [show pyMaxStep (b.map (fun f => (f.filename, s f, f)))
          (f.filename, s f, f) =
        (firstArgmaxStep s b f).map (fun f => (f.filename, s f, f)) by
      cases b with
      | none => rfl
      | some c =>
        show pyMaxStep (some (c.filename, s c, c)) (f.filename, s f, f) = _
        by_cases hlt : s c < s f
        · simp [pyMaxStep, firstArgmaxStep, hlt]
        · simp [pyMaxStep, firstArgmaxStep, hlt]]
    exact ih (firstArgmaxStep s b f)

/-- A fold of `firstArgmaxStep` started from a candidate never loses it. -/
theorem foldl_firstArgmax_some (s : DatasetFile → Nat) :
    ∀ (fs : List DatasetFile) (b : DatasetFile),
      ∃ c, fs.foldl (firstArgmaxStep s) (some b) = some c := by
  intro fs
  induction fs with
  | nil => intro b; exact ⟨b, rfl⟩
  | cons g gs ih =>
    intro b
    simp only [List.foldl_cons, firstArgmaxStep]
    by_cases hlt : s b < s g
    · rw [if_pos hlt]; exact ih g
    · rw [if_neg hlt]; exact ih b

/-- The fold keeps its start element unless it finds a strictly larger
score. -/
theorem foldl_firstArgmax_keeps_or_increases (s : DatasetFile → Nat) :
    ∀ (fs : List DatasetFile) (b c : DatasetFile),
      fs.foldl (firstArgmaxStep s) (some b) = some c →
      c = b ∨ s b < s c := by
  intro fs
  induction fs with
  | nil =>
    intro b c hc
    exact .inl (Option.some.inj hc).symm
  | cons g gs ih =>
    intro b c hc
    simp only [List.foldl_cons, firstArgmaxStep] at hc
    by_cases hlt : s b < s g
    · rw [if_pos hlt] at hc
      rcases ih g c hc with rfl | hgc
      · exact .inr hlt
      · exact .inr (lt_trans hlt hgc)
    · rw [if_neg hlt] at hc
      exact ih b c hc

/-- C6 amended. With pairwise-distinct filenames, dataset selection returns
exactly the first dataset in input order attaining the maximal score, where
the score is +10 per retained key term matching a column name (substring in
either direction, at most once per term) plus +2 per retained key term found
in the filename, and the retained key terms are the question's lowercased
words longer than 2 characters outside the stop-word set **plus every word
containing a digit or an underscore**; when the maximal score is 0 this
first-maximal element is the first dataset, so selection never fails on a
non-empty list. -/
theorem select_best_file_refines_first_argmax
    (question : String) (files : List DatasetFile)
    (hne : files ≠ [])
    (hnd : (files.map (fun f => f.filename)).Nodup) :
    select_best_file_for_question question files =
      firstArgmax (file_score (question_key_terms question)) files := by
  cases files with
  | nil => exact absurd rfl hne
  | cons f fs =>
    cases fs with
    | nil => rfl
    | cons g gs =>
      unfold select_best_file_for_question
      have hlen : ((f :: g :: gs).length == 1) = false := by
        simp [List.length_cons]
      rw [hlen]
      simp only [Bool.false_eq_true, if_false, List.isEmpty_cons]
      rw [dictInsertScore_fresh_foldl (file_score (question_key_terms question))
        (f :: g :: gs) [] (by intro x hx kv hkv; cases hkv) hnd]
      rw [List.nil_append]
      have hmax := pyMax_map_foldl (file_score (question_key_terms question))
        (f :: g :: gs) none
      unfold pyMaxEntry
      rw [show (Option.map
          (fun x => (x.filename, file_score (question_key_terms question) x, x))
          (none : Option DatasetFile)) = none from rfl] at hmax
      rw [hmax]
      unfold firstArgmax
      obtain ⟨best, hbest⟩ : ∃ c,
          List.foldl (firstArgmaxStep (file_score (question_key_terms question)))
            none (f :: g :: gs) = some c := by
        simp only [List.foldl_cons]
        exact foldl_firstArgmax_some _ (g :: gs) f
      rw [hbest]
      show (if 0 < file_score (question_key_terms question) best
        then some best else (f :: g :: gs).head?) = some best
      by_cases hz : 0 < file_score (question_key_terms question) best
      · rw [if_pos hz]
      · rw [if_neg hz]
        have hbest2 : (g :: gs).foldl
            (firstArgmaxStep (file_score (question_key_terms question)))
            (some f) = some best := hbest
        rcases foldl_firstArgmax_keeps_or_increases _ (g :: gs) f best hbest2 with
          rfl | hlt
        · rfl
        · omega

/-- C6 amended, witness: on the claim's own example the selection is the
first-maximal dataset, namely `sales.csv` with score 20. -/
theorem select_best_file_refines_first_argmax_witness :
    select_best_file_for_question "total by region"
        [⟨"sales.csv", ["region", "total"]⟩, ⟨"hr.csv", ["employee", "salary"]⟩] =
      firstArgmax (file_score (question_key_terms "total by region"))
        [⟨"sales.csv", ["region", "total"]⟩, ⟨"hr.csv", ["employee", "salary"]⟩] ∧
    select_best_file_for_question "total by region"
        [⟨"sales.csv", ["region", "total"]⟩, ⟨"hr.csv", ["employee", "salary"]⟩] =
      some ⟨"sales.csv", ["region", "total"]⟩ ∧
    file_score (question_key_terms "total by region")
      ⟨"sales.csv", ["region", "total"]⟩ = 20 :=
  ⟨select_best_file_refines_first_argmax "total by region"
      [⟨"sales.csv", ["region", "total"]⟩, ⟨"hr.csv", ["employee", "salary"]⟩]
      (by decide) (by decide),
    rfl, rfl⟩

end Radex
